import Mathlib

/-!
Shallow embedding of `src/roboclaw.py` (martha-johnston/basicmicro), a Viam
motor adapter for a Roboclaw motor controller.

Conventions of the embedding:
* Python floats are modelled as rationals (`ℚ`); the arithmetic in the claims
  is exact in both.
* Python built-in `int()` truncates toward zero: `truncInt`.
* Python float division raises `ZeroDivisionError` on a zero divisor: `pyDiv`.
* Raised exceptions are modelled by the `Err` type, one constructor per
  exception class used in the source (`ViamError`, `NotSupportedError`,
  `ZeroDivisionError`).
* Device interaction (the external `roboclaw_3` serial driver, the spec's
  DeviceCommandPort) is modelled as a trace of `Event` values: each method
  returns the list of device commands/reads it issued, paired with its
  result.  Commands issued before an exception stay in the trace.
* Device responses are inputs: encoder reads are parameterized by the value
  the device returns, and the busy poll loop of `go_for` is parameterized by
  the list of PWM readings the device produces, consumed one per poll.
-/

/-- Global constant from the source: the empirically derived max RPM ceiling. -/
def max_rpm : ℚ := 250

/-- Global constant from the source: milliseconds per minute. -/
def minutes_to_ms : ℚ := 60000

/-- Global constant from the source: the signed duty-cycle scale of the device. -/
def pwm_scale_constant : ℚ := 32767

/-- Python `int()` on a float/rational: truncation toward zero. -/
def truncInt (q : ℚ) : ℤ := if 0 ≤ q then ⌊q⌋ else ⌈q⌉

/-- Exception classes raised by the source code. -/
inductive Err
  | viamError (msg : String)
  | notSupportedError (msg : String)
  | zeroDivisionError
  | typeError (msg : String)
  deriving DecidableEq, Repr

/-- Discriminator: is this error a `NotSupportedError`? -/
def Err.isNotSupported : Err → Bool
  | .notSupportedError _ => true
  | _ => false

/-- Python float division: raises `ZeroDivisionError` on a zero divisor. -/
def pyDiv (a b : ℚ) : Except Err ℚ :=
  if b = 0 then .error .zeroDivisionError else .ok (a / b)

/-- Device commands and reads issued over the serial link, keyed the way the
source calls the `roboclaw_3` driver. -/
inductive Event
  | dutyM1 (address : ℤ) (val : ℤ)
  | dutyM2 (address : ℤ) (val : ℤ)
  | speedDistanceM1 (address : ℤ) (tps : ℤ) (ticks : ℤ) (direction : ℤ)
  | speedDistanceM2 (address : ℤ) (tps : ℤ) (ticks : ℤ) (direction : ℤ)
  | setEncM1 (address : ℤ) (val : ℚ)
  | setEncM2 (address : ℤ) (val : ℚ)
  | readEncM1 (address : ℤ)
  | readEncM2 (address : ℤ)
  | readPWMs (address : ℤ)
  | sleepSeconds (s : ℚ)
  deriving DecidableEq, Repr

/-- Configuration state of one `ViamRoboclaw` instance (the fields the motor
methods read). -/
structure ViamRoboclaw where
  address : ℤ
  ticks_per_rotation : ℚ
  motor_channel : ℤ
  deriving DecidableEq, Repr

/-- Result of `check_speed`: the near-zero branch returns a pair of a warning
string and a constructed (not raised) `ViamError`; the near-max branch returns
a warning string; otherwise the empty string is returned. -/
inductive SpeedWarning
  | nearZeroPair (msg : String) (err : Err)
  | nearMax (msg : String)
  | empty
  deriving DecidableEq, Repr

/-- Embeds `check_speed(rpm, max)`: advisory classification of the requested
speed; it returns, never raises. -/
def check_speed (rpm mx : ℚ) : SpeedWarning :=
  let speed := abs rpm
  if speed < 1/10 then
    .nearZeroPair "motor speed is nearly 0 rev_per_min"
      (.viamError "Cannot move motor at an RPM that is nearly 0")
  else if mx > 0 ∧ speed > mx - 1/10 then
    .nearMax "motor speed is nearly the max rev_per_min \x7bmax\x7d"
  else .empty

/-- Embeds `go_for_math(rpm, revolutions)`: direction sign, power fraction and
wait duration in milliseconds; the division `revolutions / rpm` raises
`ZeroDivisionError` when `rpm == 0`. -/
def go_for_math (rpm revolutions : ℚ) : Except Err (ℚ × ℚ) := do
  let dir : ℚ := if rpm * revolutions < 0 then -1 else 1
  let power_pct := abs rpm / max_rpm * dir
  let q ← pyDiv revolutions rpm
  return (power_pct, abs q * minutes_to_ms)

/-- Embeds `set_power(power)`: clamp to [-1, 1], convert to duty units with
`int(power * pwm_scale_constant)`, issue DutyM1/DutyM2 for the configured
channel (no command for an out-of-range channel, mirroring the if/elif). -/
def set_power (self : ViamRoboclaw) (power : ℚ) : List Event × Except Err Unit :=
  let power := if power > 1 then 1 else if power < -1 then -1 else power
  if self.motor_channel = 1 then
    ([.dutyM1 self.address (truncInt (power * pwm_scale_constant))], .ok ())
  else if self.motor_channel = 2 then
    ([.dutyM2 self.address (truncInt (power * pwm_scale_constant))], .ok ())
  else ([], .ok ())

/-- Embeds `stop()`: delegates to `set_power(0)`. -/
def stop (self : ViamRoboclaw) : List Event × Except Err Unit :=
  set_power self 0

/-- Channel dispatch for a duty command, as performed by `set_power`. -/
def duty_cmd (self : ViamRoboclaw) (val : ℤ) : List Event :=
  if self.motor_channel = 1 then [.dutyM1 self.address val]
  else if self.motor_channel = 2 then [.dutyM2 self.address val]
  else []

/-- Channel dispatch for a SpeedDistance command with direction flag 1, as
performed by the encoder branch of `go_for`. -/
def speed_distance_cmd (self : ViamRoboclaw) (tps ticks : ℤ) : List Event :=
  if self.motor_channel = 1 then [.speedDistanceM1 self.address tps ticks 1]
  else if self.motor_channel = 2 then [.speedDistanceM2 self.address tps ticks 1]
  else []

/-- Embeds the boolean computed by `is_powered`/`is_moving` from one ReadPWMs
response `(pwm1, pwm2)`: nonzero duty on the configured channel. -/
def is_moving_read (self : ViamRoboclaw) (p : ℤ × ℤ) : Bool :=
  if self.motor_channel = 1 then decide (p.1 ≠ 0)
  else if self.motor_channel = 2 then decide (p.2 ≠ 0)
  else false

/-- Embeds the `while await self.is_moving(): continue` loop of `go_for`: one
ReadPWMs event per poll, consuming the device's readings in order, exiting the
first time the configured channel's duty reads zero.  Returns the poll events
and whether the loop exited within the supplied readings (`false` models the
real loop still spinning with no further device responses observed). -/
def poll_until_stopped (self : ViamRoboclaw) : List (ℤ × ℤ) → List Event × Bool
  | [] => ([], false)
  | p :: rest =>
    if is_moving_read self p then
      let r := poll_until_stopped self rest
      (Event.readPWMs self.address :: r.1, r.2)
    else ([Event.readPWMs self.address], true)

/-- Embeds `get_position()`: read raw encoder ticks for the configured channel
(`encTicks` is the device's response; `ticks` stays 0 for an out-of-range
channel), then return `ticks / ticks_per_rotation` — an unguarded division
that raises `ZeroDivisionError` when `ticks_per_rotation == 0`. -/
def get_position (self : ViamRoboclaw) (encTicks : ℤ) : List Event × Except Err ℚ :=
  let r : List Event × ℤ :=
    if self.motor_channel = 1 then ([.readEncM1 self.address], encTicks)
    else if self.motor_channel = 2 then ([.readEncM2 self.address], encTicks)
    else ([], 0)
  (r.1, pyDiv (r.2 : ℚ) self.ticks_per_rotation)

/-- Embeds `get_properties()`.  The source binds `props = Motor.Properties`,
the class object itself, so `props.position_reporting = True` mutates the
shared class attribute; `attr` is that class attribute (`none` when it was
never assigned, in which case reading it raises `AttributeError`).  Returns
the `position_reporting` value of the returned object and the new class
attribute.  When `ticks_per_rotation == 0` nothing is assigned. -/
def get_properties (self : ViamRoboclaw) (attr : Option Bool) :
    Option Bool × Option Bool :=
  if self.ticks_per_rotation ≠ 0 then (some true, some true)
  else (attr, attr)

/-- Embeds `go_for(rpm, revolutions)`.  `pwms` is the list of PWM readings the
device produces for the completion poll loop (encoder branch only).  The
result is `none` when the poll loop does not exit within the supplied
readings. -/
def go_for (self : ViamRoboclaw) (pwms : List (ℤ × ℤ)) (rpm revolutions : ℚ) :
    List Event × Option (Except Err Unit) :=
  if revolutions = 0 then
    ([], some (.error (.viamError "Cannot move motor for 0 revolutions")))
  else
    -- advisory speed check: the result is only logged, it never blocks
    let _warning := check_speed rpm max_rpm
    if self.ticks_per_rotation = 0 then
      -- time-estimated branch
      let rpm := if abs rpm > max_rpm then max (min rpm max_rpm) (-max_rpm) else rpm
      match go_for_math rpm revolutions with
      | .error e => ([], some (.error e))
      | .ok pw =>
        ((set_power self pw.1).1 ++ [.sleepSeconds (pw.2 / 1000)] ++ (stop self).1,
         some (.ok ()))
    else
      -- encoder-backed branch
      let ticks := revolutions * self.ticks_per_rotation
      let ticks_per_second := rpm * self.ticks_per_rotation / 60
      let cmdEvs : List Event :=
        if self.motor_channel = 1 then
          [.speedDistanceM1 self.address (truncInt ticks_per_second) (truncInt ticks) 1]
        else if self.motor_channel = 2 then
          [.speedDistanceM2 self.address (truncInt ticks_per_second) (truncInt ticks) 1]
        else []
      let r := poll_until_stopped self pwms
      if r.2 then (cmdEvs ++ r.1 ++ (stop self).1, some (.ok ()))
      else (cmdEvs ++ r.1, none)

/-- Embeds `go_to(rpm, position_revolutions)`: refuse without an encoder, else
take `abs(rpm)` and read the current position.  The delegation then written in
the source, `self.go_for(rpm, position_revolutions - pos, extra)`, passes
`extra` as a third positional argument, but every parameter of `go_for` after
`revolutions` is keyword-only (the bare `*` in its signature), so Python
raises `TypeError` at the call site: the argument expressions are evaluated
and then `go_for` never runs.  `_pwms` is the list of PWM readings the device
would produce for `go_for`'s poll loop; the move never starts, so none are
consumed. -/
def go_to (self : ViamRoboclaw) (encTicks : ℤ) (_pwms : List (ℤ × ℤ))
    (rpm position_revolutions : ℚ) : List Event × Option (Except Err Unit) :=
  if self.ticks_per_rotation = 0 then
    ([], some (.error (.viamError "roboclaw needs an encoder connected to use GoTo")))
  else
    let rpm := abs rpm
    let gp := get_position self encTicks
    match gp.2 with
    | .error e => (gp.1, some (.error e))
    | .ok pos =>
      let _goForArgs := (rpm, position_revolutions - pos)
      (gp.1, some (.error (.typeError "go_for() takes 3 positional arguments but 4 were given")))

/-- Embeds `reset_zero_position(offset)`: refuse without an encoder, else set
the encoder to `-1 * offset * ticks_per_rotation` on the configured channel. -/
def reset_zero_position (self : ViamRoboclaw) (offset : ℚ) :
    List Event × Except Err Unit :=
  if self.ticks_per_rotation = 0 then
    ([], .error (.notSupportedError "to use reset_zero_position, add an encoder to roboclaw motor"))
  else
    let new_ticks := -1 * offset * self.ticks_per_rotation
    if self.motor_channel = 1 then ([.setEncM1 self.address new_ticks], .ok ())
    else if self.motor_channel = 2 then ([.setEncM2 self.address new_ticks], .ok ())
    else ([], .ok ())

/-! ## Theorems -/

/-- Claim C3: for every rpm and both motion modes, `go_for` with
`revolutions = 0` fails with the zero-revolution `ViamError` (the spec's
InvalidArgument) and the trace is empty: no device command is issued. -/
theorem C3_go_for_zero_revolutions (self : ViamRoboclaw)
    (pwms : List (ℤ × ℤ)) (rpm : ℚ) :
    go_for self pwms rpm 0 =
      ([], some (.error (.viamError "Cannot move motor for 0 revolutions"))) := by
  simp [go_for]

/-- Claim C4, counterexample: with `ticks_per_rotation = 0`, `go_to` raises a
plain `ViamError`, which is not a `NotSupportedError`, refuting the claim that
both GoTo and ResetZeroPosition fail with a NotSupported error. -/
theorem C4_counterexample :
    go_to ⟨128, 0, 1⟩ 0 [] 120 2 =
      ([], some (.error (.viamError "roboclaw needs an encoder connected to use GoTo")))
    ∧ Err.isNotSupported
        (.viamError "roboclaw needs an encoder connected to use GoTo") = false :=
  ⟨by simp [go_to], rfl⟩

/-- Claim C4, amended: whenever `ticks_per_rotation = 0`, `go_to` fails with a
generic `ViamError` (not a `NotSupportedError`) and `reset_zero_position`
fails with a `NotSupportedError`; both fail with an empty trace, i.e. before
any device command is issued. -/
theorem C4_amended_no_encoder_errors (self : ViamRoboclaw) (encTicks : ℤ)
    (pwms : List (ℤ × ℤ)) (rpm target offset : ℚ)
    (htpr : self.ticks_per_rotation = 0) :
    go_to self encTicks pwms rpm target =
      ([], some (.error (.viamError "roboclaw needs an encoder connected to use GoTo")))
    ∧ reset_zero_position self offset =
      ([], .error (.notSupportedError "to use reset_zero_position, add an encoder to roboclaw motor")) := by
  constructor <;> simp [go_to, reset_zero_position, htpr]

/-- Claim C4, witness for the amended theorem at a concrete configuration. -/
theorem C4_amended_witness :
    go_to ⟨128, 0, 2⟩ 7 [(1, 1)] 50 3 =
      ([], some (.error (.viamError "roboclaw needs an encoder connected to use GoTo")))
    ∧ reset_zero_position ⟨128, 0, 2⟩ 5 =
      ([], .error (.notSupportedError "to use reset_zero_position, add an encoder to roboclaw motor")) :=
  C4_amended_no_encoder_errors ⟨128, 0, 2⟩ 7 [(1, 1)] 50 3 5 rfl

/-- Claim C6: `get_position` performs the division `ticks / ticks_per_rotation`
with no explicit guard; at `ticks_per_rotation = 0` the encoder read is issued
and then `ZeroDivisionError` is raised, contradicting the claim that the zero
case is explicitly guarded. -/
theorem C6_get_position_unguarded_division :
    get_position ⟨128, 0, 1⟩ 12345 = ([.readEncM1 128], .error .zeroDivisionError) := by
  simp [get_position, pyDiv]

/-- Claim C7: `get_properties` mutates the shared class attribute and never
assigns `false`: with `ticks_per_rotation = 0` it reports the stale attribute
(`true` after any encoder-backed call ever set it, unset on a fresh process),
contradicting the claim that such a controller reports position reporting as
false; with `ticks_per_rotation = 490` it sets the shared attribute to true. -/
theorem C7_get_properties_never_false :
    get_properties ⟨128, 0, 1⟩ (some true) = (some true, some true)
    ∧ get_properties ⟨128, 0, 1⟩ none = (none, none)
    ∧ get_properties ⟨128, 490, 1⟩ none = (some true, some true) := by
  refine ⟨?_, ?_, ?_⟩ <;> simp [get_properties]

/-- Claim C9: `set_power` clamps to [-1, 1]: for p > 1 it issues exactly the
command of `set_power 1`, and for p < -1 exactly the command of
`set_power (-1)`. -/
theorem C9_set_power_clamp (self : ViamRoboclaw) (p : ℚ) :
    (1 < p → set_power self p = set_power self 1)
    ∧ (p < -1 → set_power self p = set_power self (-1)) := by
  constructor
  · intro h
    unfold set_power
    rw [if_pos h, if_neg (by norm_num : ¬ (1 : ℚ) > 1),
      if_neg (by norm_num : ¬ (1 : ℚ) < -1)]
  · intro h
    unfold set_power
    rw [if_neg (by linarith : ¬ p > 1), if_pos h,
      if_neg (by norm_num : ¬ (-1 : ℚ) > 1), if_neg (by norm_num : ¬ (-1 : ℚ) < -1)]

/-- Claim C9, witness: concrete out-of-range powers on channel 1. -/
theorem C9_set_power_clamp_witness :
    ((1 : ℚ) < 5 ∧ set_power ⟨128, 490, 1⟩ 5 = set_power ⟨128, 490, 1⟩ 1)
    ∧ ((-5 : ℚ) < -1 ∧ set_power ⟨128, 490, 1⟩ (-5) = set_power ⟨128, 490, 1⟩ (-1)) :=
  ⟨⟨by norm_num, (C9_set_power_clamp ⟨128, 490, 1⟩ 5).1 (by norm_num)⟩,
   ⟨by norm_num, (C9_set_power_clamp ⟨128, 490, 1⟩ (-5)).2 (by norm_num)⟩⟩

/-- Claim C10: in TimeEstimated mode, `go_for` with `rpm = 0` and nonzero
revolutions raises `ZeroDivisionError` (from `|revolutions / rpm|` in
`go_for_math`) with an empty trace — before any device command — while the
near-zero advisory check merely returns a warning value and does not block. -/
theorem C10_go_for_zero_rpm_division_error (self : ViamRoboclaw)
    (pwms : List (ℤ × ℤ)) (revolutions : ℚ)
    (htpr : self.ticks_per_rotation = 0) (hrev : revolutions ≠ 0) :
    check_speed 0 max_rpm =
      .nearZeroPair "motor speed is nearly 0 rev_per_min"
        (.viamError "Cannot move motor at an RPM that is nearly 0")
    ∧ go_for self pwms 0 revolutions = ([], some (.error .zeroDivisionError)) := by
  constructor
  · norm_num [check_speed]
  · norm_num [go_for, htpr, hrev, go_for_math, pyDiv, max_rpm]

/-- Claim C10, witness at a concrete TimeEstimated configuration. -/
theorem C10_witness :
    check_speed 0 max_rpm =
      .nearZeroPair "motor speed is nearly 0 rev_per_min"
        (.viamError "Cannot move motor at an RPM that is nearly 0")
    ∧ go_for ⟨128, 0, 1⟩ [] 0 10 = ([], some (.error .zeroDivisionError)) :=
  C10_go_for_zero_rpm_division_error ⟨128, 0, 1⟩ [] 10 rfl (by norm_num)

/-- Claim C8, counterexample: at power 7/10 the code issues duty 22936 (Python
`int()` truncation of 22936.9), while nearest-integer rounding of
`(7/10) * 32767` is 22937, refuting the claim that the conversion is
`round(power * DUTY_SCALE)`. -/
theorem C8_counterexample :
    set_power ⟨128, 490, 1⟩ (7/10) = ([.dutyM1 128 22936], .ok ())
    ∧ round ((7/10 : ℚ) * pwm_scale_constant) = (22937 : ℤ)
    ∧ (22936 : ℤ) ≠ 22937 := by
  refine ⟨?_, ?_, by norm_num⟩
  · norm_num [set_power, truncInt, pwm_scale_constant]
  · rw [round_eq]
    norm_num [pwm_scale_constant]

/-- Claim C8, amended: for power already in [-1, 1], `set_power` converts to
duty units by truncation toward zero, `int(power * pwm_scale_constant)`, and
issues the duty command for the configured channel. -/
theorem C8_amended_truncation (self : ViamRoboclaw) (p : ℚ)
    (h1 : -1 ≤ p) (h2 : p ≤ 1) :
    set_power self p = (duty_cmd self (truncInt (p * pwm_scale_constant)), .ok ()) := by
  unfold set_power duty_cmd
  rw [if_neg (not_lt.mpr h2), if_neg (not_lt.mpr h1)]
  by_cases hc1 : self.motor_channel = 1
  · simp [hc1]
  · by_cases hc2 : self.motor_channel = 2 <;> simp [hc1, hc2]

/-- Claim C8, witness for the amended theorem: power -3/8 on channel 2 gives
duty trunc(-12287.625) = -12287. -/
theorem C8_amended_witness :
    ((-1 : ℚ) ≤ -3/8 ∧ (-3/8 : ℚ) ≤ 1)
    ∧ set_power ⟨128, 490, 2⟩ (-3/8) = ([.dutyM2 128 (-12287)], .ok ()) := by
  refine ⟨⟨by norm_num, by norm_num⟩, ?_⟩
  have h := C8_amended_truncation ⟨128, 490, 2⟩ (-3/8) (by norm_num) (by norm_num)
  rw [h]
  norm_num [duty_cmd, truncInt, pwm_scale_constant, Int.ceil_neg]

/-- Claim C1: in EncoderBacked mode (`ticks_per_rotation > 0`) with nonzero
revolutions, provided the device eventually reports the move complete,
`go_for` issues exactly one SpeedDistance command for the configured channel
carrying `int(rpm * ticksPerRotation / 60)` and
`int(revolutions * ticksPerRotation)` with direction 1, then polls IsMoving
(one ReadPWMs per poll) until it returns false, and finally issues Stop. -/
theorem C1_go_for_encoder_backed (self : ViamRoboclaw) (pwms : List (ℤ × ℤ))
    (rpm revolutions : ℚ) (htpr : 0 < self.ticks_per_rotation)
    (hrev : revolutions ≠ 0)
    (hstop : (poll_until_stopped self pwms).2 = true) :
    go_for self pwms rpm revolutions =
      (speed_distance_cmd self (truncInt (rpm * self.ticks_per_rotation / 60))
          (truncInt (revolutions * self.ticks_per_rotation))
        ++ (poll_until_stopped self pwms).1 ++ (stop self).1,
       some (.ok ())) := by
  unfold go_for speed_distance_cmd
  rw [if_neg hrev, if_neg htpr.ne']
  simp only [hstop, if_true]

/-- Claim C1, witness: the spec example `ticksPerRotation = 490, rpm = 100,
revolutions = 10` on channel 1 carries ticks 4900 and ticksPerSecond 816. -/
theorem C1_witness :
    go_for ⟨128, 490, 1⟩ [(3, 0), (0, 0)] 100 10 =
      ([.speedDistanceM1 128 816 4900 1, .readPWMs 128, .readPWMs 128, .dutyM1 128 0],
       some (.ok ())) := by
  have h := C1_go_for_encoder_backed ⟨128, 490, 1⟩ [(3, 0), (0, 0)] 100 10
    (by norm_num) (by norm_num) (by norm_num [poll_until_stopped, is_moving_read])
  rw [h]
  norm_num [speed_distance_cmd, poll_until_stopped, is_moving_read, stop, set_power,
    truncInt, pwm_scale_constant]

/-- Claim C5: the code does not delegate: in EncoderBacked mode `go_to` reads
the current position and then raises `TypeError` — line 194 passes `extra` as
a third positional argument to `go_for`, whose `extra` is keyword-only — so
`go_for` never runs and no motion command is issued, refuting the claim that
`go_to` then behaves exactly like `go_for`.  Evaluated at the failing input
channel 1, 490 ticks per rotation, encoder at 980 ticks, rpm -100, target 12:
the trace holds the encoder read alone. -/
theorem C5_go_to_type_error :
    go_to ⟨128, 490, 1⟩ 980 [(5, 5), (0, 0)] (-100) 12 =
      ([.readEncM1 128],
       some (.error (.typeError "go_for() takes 3 positional arguments but 4 were given"))) := by
  norm_num [go_to, get_position, pyDiv]

/-- Helper: when the divisor is nonzero, `go_for_math` succeeds with the power
fraction and millisecond duration formulas of the source. -/
theorem go_for_math_ok (rpm revolutions : ℚ) (h : rpm ≠ 0) :
    go_for_math rpm revolutions =
      .ok (abs rpm / max_rpm * (if rpm * revolutions < 0 then (-1 : ℚ) else 1),
           abs (revolutions / rpm) * minutes_to_ms) := by
  unfold go_for_math pyDiv
  rw [if_neg h]
  rfl

/-- Helper: the conditional clamp of the source equals the unconditional
clamp to [-max_rpm, max_rpm]. -/
theorem clamp_cases (rpm : ℚ) :
    (if abs rpm > max_rpm then max (min rpm max_rpm) (-max_rpm) else rpm)
      = max (min rpm max_rpm) (-max_rpm) := by
  split
  · rfl
  · rename_i h
    have h1 := abs_le.mp (not_lt.mp h)
    rw [min_eq_left h1.2, max_eq_left h1.1]

/-- Helper: clamping a positive rpm stays positive. -/
theorem clamp_pos (rpm : ℚ) (h : 0 < rpm) : 0 < max (min rpm max_rpm) (-max_rpm) :=
  lt_of_lt_of_le (lt_min h (by norm_num [max_rpm])) (le_max_left _ _)

/-- Helper: clamping a negative rpm stays negative. -/
theorem clamp_neg (rpm : ℚ) (h : rpm < 0) : max (min rpm max_rpm) (-max_rpm) < 0 := by
  have h1 : min rpm max_rpm = rpm := min_eq_left (by norm_num [max_rpm]; linarith)
  rw [h1]
  exact max_lt h (by norm_num [max_rpm])

/-- Helper: clamping a nonzero rpm stays nonzero. -/
theorem clamp_ne_zero (rpm : ℚ) (h : rpm ≠ 0) :
    max (min rpm max_rpm) (-max_rpm) ≠ 0 := by
  rcases h.lt_or_lt with hn | hp
  · exact ne_of_lt (clamp_neg rpm hn)
  · exact ne_of_gt (clamp_pos rpm hp)

/-- Helper: the direction sign computed from the clamped rpm agrees with the
one computed from the requested rpm. -/
theorem clamp_mul_neg_iff (rpm rev : ℚ) (h : rpm ≠ 0) :
    max (min rpm max_rpm) (-max_rpm) * rev < 0 ↔ rpm * rev < 0 := by
  rw [mul_neg_iff, mul_neg_iff]
  rcases h.lt_or_lt with hn | hp
  · have hc := clamp_neg rpm hn
    constructor
    · rintro (⟨h1, _⟩ | ⟨_, h2⟩)
      · exact absurd h1 (not_lt.mpr hc.le)
      · exact Or.inr ⟨hn, h2⟩
    · rintro (⟨h1, _⟩ | ⟨_, h2⟩)
      · exact absurd h1 (not_lt.mpr hn.le)
      · exact Or.inr ⟨hc, h2⟩
  · have hc := clamp_pos rpm hp
    constructor
    · rintro (⟨_, h2⟩ | ⟨h1, _⟩)
      · exact Or.inl ⟨hp, h2⟩
      · exact absurd h1 (not_lt.mpr hc.le)
    · rintro (⟨_, h2⟩ | ⟨h1, _⟩)
      · exact Or.inl ⟨hc, h2⟩
      · exact absurd h1 (not_lt.mpr hp.le)

/-- Claim C2: in TimeEstimated mode (`ticks_per_rotation = 0`) with nonzero
rpm and revolutions, `go_for` clamps rpm to [-max_rpm, max_rpm], issues
SetPower with `sign(rpm * revolutions) * |clampedRpm| / max_rpm`, sleeps for
`|revolutions / clampedRpm| * 60000` milliseconds, then issues Stop. -/
theorem C2_go_for_time_estimated (self : ViamRoboclaw) (pwms : List (ℤ × ℤ))
    (rpm revolutions : ℚ) (htpr : self.ticks_per_rotation = 0)
    (hrpm : rpm ≠ 0) (hrev : revolutions ≠ 0) :
    go_for self pwms rpm revolutions =
      ((set_power self ((if rpm * revolutions < 0 then (-1 : ℚ) else 1)
            * abs (max (min rpm max_rpm) (-max_rpm)) / max_rpm)).1
        ++ [.sleepSeconds (abs (revolutions / max (min rpm max_rpm) (-max_rpm))
              * minutes_to_ms / 1000)]
        ++ (stop self).1,
       some (.ok ())) := by
  have hcne := clamp_ne_zero rpm hrpm
  have hmath := go_for_math_ok (max (min rpm max_rpm) (-max_rpm)) revolutions hcne
  simp only [go_for, hrev, htpr, clamp_cases rpm, hmath,
    clamp_mul_neg_iff rpm revolutions hrpm, if_true, if_false, ite_true, ite_false,
    if_neg hrev]
  rw [show abs (max (min rpm max_rpm) (-max_rpm)) / max_rpm
        * (if rpm * revolutions < 0 then (-1 : ℚ) else 1)
      = (if rpm * revolutions < 0 then (-1 : ℚ) else 1)
        * abs (max (min rpm max_rpm) (-max_rpm)) / max_rpm from by ring]

/-- Claim C2, witness: the spec example `rpm = 100, revolutions = 10` in
TimeEstimated mode gives power fraction 4/10 (duty 13106 on channel 1) and
duration 6000 ms, i.e. a 6 second sleep between SetPower and Stop. -/
theorem C2_witness :
    go_for ⟨128, 0, 1⟩ [] 100 10 =
      ((set_power ⟨128, 0, 1⟩ (4/10)).1 ++ [.sleepSeconds (6000 / 1000)]
        ++ (stop ⟨128, 0, 1⟩).1,
       some (.ok ()))
    ∧ go_for ⟨128, 0, 1⟩ [] 100 10 =
      ([.dutyM1 128 13106, .sleepSeconds 6, .dutyM1 128 0], some (.ok ())) := by
  have h := C2_go_for_time_estimated ⟨128, 0, 1⟩ [] 100 10 rfl (by norm_num) (by norm_num)
  constructor
  · rw [h]
    norm_num [max_rpm, minutes_to_ms, min_def, max_def, abs_of_nonneg]
  · rw [h]
    norm_num [set_power, stop, truncInt, pwm_scale_constant, max_rpm, minutes_to_ms,
      min_def, max_def, abs_of_nonneg]
